import Mathlib

/-!
# Verification of the pool-report metrics reconciliation core

A shallow embedding of the metrics reconciliation and normalization engine of
the pool-report repository (`src/services/balancer_api.py` and
`src/services/metrics_calculator.py`), together with theorems settling the
frozen claims about it.

Modelling conventions:
* Python floats on the data path are modelled by `ℚ` (all the arithmetic the
  claims are about is exact field arithmetic).
* Unix timestamps (Python `int`) are modelled by `ℤ`.
* Upstream GraphQL calls are modelled by their data contract: the snapshot
  queries of both schema paths return exactly the stored snapshots whose
  timestamp lies inside the requested trailing window, and the two
  current-pool retrieval paths are oracles supplied as parameters
  (`Except Unit (Option α)`: `.error` = raised exception, `.ok none` =
  empty result, `.ok (some p)` = pool found).
* Python's `sorted(key=k, reverse=True)` is a stable descending sort; it is
  embedded as `List.insertionSort` with the relation `fun p q => k q ≤ k p`,
  which is extensionally the unique stable descending sort by `k`.
* Python's truthiness tests on optional floats (`if p.apr_current:`) are
  embedded as "is `some a` with `a ≠ 0`"; presence of a key in a dict
  (`"totalApr" in dynamic_data`) is embedded as an `Option` field.
-/

namespace PoolReport

/-! ## Data model -/

/-- A pool snapshot as used by `metrics_calculator` / `balancer_api`:
`timestamp` (Unix seconds), instantaneous `liquidity`, and the cumulative
`swapVolume` / `swapFees` counters. -/
structure Snapshot where
  timestamp : Int
  liquidity : ℚ
  swapVolume : ℚ
  swapFees : ℚ
deriving DecidableEq

/-- The `dynamicData` block of a normalized pool payload, with the fields
`calculate_pool_metrics` reads.  `totalApr` and `apr` are `Option` because
the code tests key presence (`"totalApr" in dynamic_data`). -/
structure DynamicData where
  totalLiquidity : ℚ
  volume24h : ℚ
  fees24h : ℚ
  totalApr : Option ℚ
  aprItems : List ℚ
  apr : Option ℚ
deriving DecidableEq

/-- The slice of a normalized current-pool payload that
`MetricsCalculator.calculate_pool_metrics` consumes: name, the
`_api_version` / `_blockchain` markers stamped by the gateway, the swap fee
(as parsed by `_extract_static_metrics`), the `dynamicData` block, and the
pool-level `totalShares` / `apr` keys probed by the APR fallback chain. -/
structure PoolData where
  name : String
  apiVersion : String
  blockchain : String
  swapFee : ℚ
  dynamicData : DynamicData
  hasTotalShares : Bool
  apr : Option ℚ
deriving DecidableEq

/-- The reconciled output of `calculate_pool_metrics` (the `PoolMetrics`
model), restricted to the fields the claims are about.
`rebalance_count_15d` and `boosted_apr` are carried because the Portfolio
Aggregator ranks by them. -/
structure PoolMetrics where
  pool_name : String
  pool_address : String
  pool_url : String
  tvl_current : ℚ
  tvl_15_days_ago : ℚ
  tvl_change_percent : ℚ
  volume_15_days : ℚ
  volume_change_percent : ℚ
  fees_15_days : ℚ
  fees_change_percent : ℚ
  apr_current : Option ℚ
  swap_fee : ℚ
  rebalance_count_15d : Option Int
  boosted_apr : Option ℚ
deriving DecidableEq

/-- The aggregate output of `calculate_multi_pool_metrics` (the
`MultiPoolMetrics` model).  Ranking entries are the tuples the code builds:
`(pool_name, value, percentage, pool_url)` for the two built-in rankings and
`(pool_name, value, pool_url)` for custom rankings.  The `custom_rankings`
dict is modelled by one `Option` field per possible key. -/
structure MultiPoolMetrics where
  pools : List PoolMetrics
  top_3_by_volume : List (String × ℚ × ℚ × String)
  top_3_by_tvl : List (String × ℚ × ℚ × String)
  swap_fee_ranking : Option (List (String × ℚ × String))
  rebalance_count_ranking : Option (List (String × Int × String))
  boosted_apr_ranking : Option (List (String × ℚ × String))
  total_fees : ℚ
  total_apr : ℚ

/-! ## Upstream Pool Gateway (`balancer_api.py`) -/

/-- The snapshot-history fetch of `BalancerAPI.get_pool_snapshots` /
`get_v3_pool_snapshots`, modelled by its windowing contract: given the stored
snapshot series `db` of a pool, both paths return exactly the snapshots with
`timestamp >= now - days_back` days (the v2 query filters `timestamp_gte`
server-side, the v3 path filters `timestamp >= start_timestamp` in code; the
v3 normalization rewrites the counters but keeps every timestamp). -/
def get_pool_snapshots (db : List Snapshot) (now : Int) (daysBack : Int) :
    List Snapshot :=
  db.filter fun s => decide (now - daysBack * 86400 ≤ s.timestamp)

/-- Python's `min(nearby_snapshots, key=lambda s: abs(timestamp - target))`:
fold that keeps the current best and replaces it only on a strictly smaller
distance (so the first minimizer wins, as in Python). -/
def minByDist (target : Int) (x : Snapshot) (xs : List Snapshot) : Snapshot :=
  xs.foldl
    (fun a b =>
      if (b.timestamp - target).natAbs < (a.timestamp - target).natAbs then b
      else a)
    x

/-- The Historical Snapshot Locator: lines 511-530 of
`BalancerAPI.get_snapshot_at_timestamp`.  Filter the snapshots within one day
(86400 s) of the target, return `none` if none survives, otherwise the
closest one. -/
def find_nearest_snapshot (snapshots : List Snapshot) (target : Int) :
    Option Snapshot :=
  match snapshots.filter fun s => decide ((s.timestamp - target).natAbs ≤ 86400) with
  | [] => none
  | x :: xs => some (minByDist target x xs)

/-- `BalancerAPI.get_snapshot_at_timestamp`: fetch 5 days of snapshots, then
locate the snapshot nearest the target (within the one-day tolerance).
`now` is the clock used by the 5-day fetch. -/
def get_snapshot_at_timestamp (db : List Snapshot) (targetTimestamp : Int)
    (now : Int) : Option Snapshot :=
  let snapshots := get_pool_snapshots db now 5
  if snapshots = [] then none
  else find_nearest_snapshot snapshots targetTimestamp

/-- The chain gate of `BalancerAPI.get_current_pool_data`:
`not blockchain or blockchain.lower() == "ethereum"`. -/
def is_default_chain (blockchain : Option String) : Bool :=
  match blockchain with
  | none => true
  | some b => b.toLower == "ethereum"

/-- The message of the `BalancerAPIError` raised when both retrieval paths
fail (the code interpolates the address and chain into it; the model keeps
the constant part). -/
def pool_not_found_message : String :=
  "Pool not found. Tried both V2 subgraph and V3 API."

/-- `BalancerAPI.get_current_pool_data` (lines 96-187), with the two
retrieval paths supplied as oracles.  `gqlConfigured` is the truthiness of
`settings.balancer_gql_endpoint` (default `None`, hence `false`).  On the
default chain with the endpoint configured, the V2 subgraph is tried first;
an exception (`.error`) or empty result (`.ok none`) there is caught and the
V3 API is tried; when neither path yields a pool, the not-found error is
raised.  The payload type is abstract: the `_api_version` / `_blockchain`
stamping is irrelevant to the claims. -/
def get_current_pool_data {α : Type} (gqlConfigured : Bool)
    (blockchain : Option String) (v2Fetch : Except Unit (Option α))
    (v3Fetch : Except Unit (Option α)) : Except String α :=
  let v3Attempt : Except String α :=
    match v3Fetch with
    | Except.ok (some p) => Except.ok p
    | _ => Except.error pool_not_found_message
  if gqlConfigured && is_default_chain blockchain then
    match v2Fetch with
    | Except.ok (some p) => Except.ok p
    | _ => v3Attempt
  else v3Attempt

/-! ## Metrics Reconciler (`metrics_calculator.py`) -/

/-- Ascending-timestamp relation used to model
`period_snapshots.sort(key=lambda x: int(x.get("timestamp", 0)))`. -/
def tsLE (s t : Snapshot) : Prop :=
  s.timestamp ≤ t.timestamp

instance : DecidableRel tsLE := fun s t =>
  inferInstanceAs (Decidable (s.timestamp ≤ t.timestamp))

instance : IsTotal Snapshot tsLE :=
  ⟨fun s t => Int.le_total s.timestamp t.timestamp⟩

instance : IsTrans Snapshot tsLE :=
  ⟨fun _ _ _ h h' => le_trans h h'⟩

/-- Python's `max(pre_period_snapshots, key=lambda x: timestamp)`: fold that
replaces the current best only on a strictly larger timestamp (so the first
maximizer wins, as in Python). -/
def maxByTimestamp (x : Snapshot) (xs : List Snapshot) : Snapshot :=
  xs.foldl (fun a b => if a.timestamp < b.timestamp then b else a) x

/-- `MetricsCalculator._calculate_period_metrics` (lines 326-386): cumulative
volume and fees for the trailing window starting at `startTimestamp`.  The
in-window snapshots are sorted ascending by timestamp; the latest in-window
counter is diffed against the latest strictly-pre-window counter (falling
back to the earliest in-window snapshot), clamped at zero. -/
def calculate_period_metrics (snapshots : List Snapshot)
    (startTimestamp : Int) : ℚ × ℚ :=
  if snapshots = [] then (0, 0)
  else if (snapshots.filter fun s => decide (startTimestamp ≤ s.timestamp)) = [] then
    (0, 0)
  else
    match (snapshots.filter fun s =>
        decide (startTimestamp ≤ s.timestamp)).insertionSort tsLE with
    | [] => (0, 0)
    | earliest :: rest =>
      let latest := (earliest :: rest).getLast (List.cons_ne_nil _ _)
      let base :=
        match snapshots.filter fun s => decide (s.timestamp < startTimestamp) with
        | [] => earliest
        | p :: ps => maxByTimestamp p ps
      (max 0 (latest.swapVolume - base.swapVolume),
        max 0 (latest.swapFees - base.swapFees))

/-- The `tvl_15d_ago` selection of `calculate_pool_metrics` (lines 194-205):
the near-target snapshot's liquidity, else the earliest fetched snapshot's
liquidity, else — only when `pool_version == "v3"` — the current TVL
(the variable is initialized to `0.0`, so v2 pools without history keep 0). -/
def baseline_tvl (snapshot15 : Option Snapshot) (snapshots : List Snapshot)
    (apiVersion : String) (tvlCurrent : ℚ) : ℚ :=
  match snapshot15 with
  | some s => s.liquidity
  | none =>
    match snapshots with
    | s :: _ => s.liquidity
    | [] => if apiVersion = "v3" then tvlCurrent else 0

/-- The `volume_15d_ago` / `fees_15d_ago` selection of
`calculate_pool_metrics` (lines 212-221): the near-target snapshot's
counters, else the earliest fetched snapshot's counters, else the `0.0`
initializers. -/
def baseline_counters (snapshot15 : Option Snapshot)
    (snapshots : List Snapshot) : ℚ × ℚ :=
  match snapshot15 with
  | some s => (s.swapVolume, s.swapFees)
  | none =>
    match snapshots with
    | s :: _ => (s.swapVolume, s.swapFees)
    | [] => (0, 0)

/-- `snapshots[-1]["swapVolume"]` guarded by `if snapshots:` with a `0.0`
initializer (lines 242-244). -/
def current_cumulative_volume (snapshots : List Snapshot) : ℚ :=
  match snapshots.getLast? with
  | some s => s.swapVolume
  | none => 0

/-- `snapshots[-1]["swapFees"]` guarded by `if snapshots:` with a `0.0`
initializer (lines 251-253). -/
def current_cumulative_fees (snapshots : List Snapshot) : ℚ :=
  match snapshots.getLast? with
  | some s => s.swapFees
  | none => 0

/-- The APR resolution chain of `calculate_pool_metrics` (lines 258-289).
Each step runs only while the accumulator is `None` or `0`:
(a) `dynamicData.totalApr` when the key is present; (b) when `aprItems` is
non-empty, their sum if positive, else the first item; (c) the scalar
`dynamicData.apr` when present; (d) the pool-level `apr` when `totalShares`
is present; (e) the fee-implied APR when TVL and period fees are positive. -/
def extract_apr (pool : PoolData) (tvlCurrent : ℚ) (fees15Days : ℚ) :
    Option ℚ :=
  let apr0 : Option ℚ := pool.dynamicData.totalApr
  let apr1 : Option ℚ :=
    if apr0 = none ∨ apr0 = some 0 then
      match pool.dynamicData.aprItems with
      | [] => apr0
      | i :: is =>
        if 0 < (i :: is).sum then some (i :: is).sum else some i
    else apr0
  let apr2 : Option ℚ :=
    if apr1 = none ∨ apr1 = some 0 then
      match pool.dynamicData.apr with
      | some a => some a
      | none => apr1
    else apr1
  let apr3 : Option ℚ :=
    if apr2 = none ∨ apr2 = some 0 then
      if pool.hasTotalShares then
        match pool.apr with
        | some a => some a
        | none => apr2
      else apr2
    else apr2
  if (apr3 = none ∨ apr3 = some 0) ∧ 0 < tvlCurrent ∧ 0 < fees15Days then
    some (fees15Days / 15 * 365 / tvlCurrent)
  else apr3

/-- First candidate that is present (`some`) and non-zero, else `none`:
the resolution rule the spec describes for the APR chain. -/
def first_nonzero : List (Option ℚ) → Option ℚ
  | [] => none
  | none :: rest => first_nonzero rest
  | some a :: rest => if a = 0 then first_nonzero rest else some a

/-- The APR candidates in resolution order, as the code actually computes
them: aggregate `totalApr`; for non-empty `aprItems` the full sum when
positive, else the first item; the scalar `dynamicData.apr`; the pool-level
`apr` gated on `totalShares`; the fee-implied APR gated on positive TVL and
period fees. -/
def apr_candidates (pool : PoolData) (tvlCurrent : ℚ) (fees15Days : ℚ) :
    List (Option ℚ) :=
  [pool.dynamicData.totalApr,
    (match pool.dynamicData.aprItems with
      | [] => none
      | i :: is => some (if 0 < (i :: is).sum then (i :: is).sum else i)),
    pool.dynamicData.apr,
    (if pool.hasTotalShares then pool.apr else none),
    (if 0 < tvlCurrent ∧ 0 < fees15Days then
      some (fees15Days / 15 * 365 / tvlCurrent)
    else none)]

/-- Whether any APR source step ever assigns to the accumulator (making the
final result `0` rather than `None` when every assigned value is zero). -/
def any_apr_source_present (pool : PoolData) : Prop :=
  pool.dynamicData.totalApr ≠ none ∨ pool.dynamicData.aprItems ≠ [] ∨
    pool.dynamicData.apr ≠ none ∨ (pool.hasTotalShares = true ∧ pool.apr ≠ none)

instance (pool : PoolData) : Decidable (any_apr_source_present pool) := by
  unfold any_apr_source_present
  infer_instance

/-- The amended APR resolution rule: first non-null, non-zero candidate of
`apr_candidates`; when no candidate fires, the result is `0` if any source
was present (a present-but-zero source assigns `0` to the accumulator) and
`None` otherwise. -/
def resolve_apr_amended (pool : PoolData) (tvlCurrent : ℚ) (fees15Days : ℚ) :
    Option ℚ :=
  match first_nonzero (apr_candidates pool tvlCurrent fees15Days) with
  | some v => some v
  | none => if any_apr_source_present pool then some 0 else none

/-- Modelled from the spec: the APR resolution chain exactly as claim C7
words it — first non-null, non-zero value among (a) the aggregate `totalApr`,
(b) the full sum of all APR line-items, (c) the scalar `apr` fields, (d) the
fee-implied APR; null when every step yields nothing. -/
def resolve_apr_claim (pool : PoolData) (tvlCurrent : ℚ) (fees15Days : ℚ) :
    Option ℚ :=
  first_nonzero
    [pool.dynamicData.totalApr,
      some pool.dynamicData.aprItems.sum,
      pool.dynamicData.apr,
      (if pool.hasTotalShares then pool.apr else none),
      (if 0 < tvlCurrent ∧ 0 < fees15Days then
        some (fees15Days / 15 * 365 / tvlCurrent)
      else none)]

/-- One assignment step of the APR chain: when the accumulator is still
`None`-or-`0` and the step's source is present, the source's value is
assigned; otherwise the accumulator is kept.  Every step of `extract_apr`
is an instance of this shape with the matching `apr_candidates` entry. -/
def apr_step (acc cand : Option ℚ) : Option ℚ :=
  if acc = none ∨ acc = some 0 then
    match cand with
    | some v => some v
    | none => acc
  else acc

/-- `MetricsCalculator._generate_pool_url`. -/
def generate_pool_url (blockchain : String) (version : String)
    (poolAddress : String) : String :=
  "https://balancer.fi/pools/" ++ blockchain ++ "/" ++ version ++ "/" ++
    poolAddress.toLower

/-- The pure reconciliation core of `MetricsCalculator.calculate_pool_metrics`
(lines 187-324), taking the already-fetched inputs: the current pool payload,
the 30-day snapshot list, the near-15-days-ago snapshot lookup result, and
the window-start timestamp.  The `_extract_dynamic_metrics` extras
(`boosted_apr`, `rebalance_count_15d`) are data-source-less (`None`) for the
pool shapes the claims quantify over and are set to `none` here. -/
def calculate_pool_metrics (poolAddress : String) (pool : PoolData)
    (snapshots : List Snapshot) (snapshot15 : Option Snapshot)
    (fifteenDaysAgoTs : Int) : PoolMetrics :=
  let tvlCurrent := pool.dynamicData.totalLiquidity
  let hasHistoricalData := snapshots ≠ []
  let tvl15dAgo := baseline_tvl snapshot15 snapshots pool.apiVersion tvlCurrent
  let tvlChangePercent :=
    if 0 < tvl15dAgo ∧ hasHistoricalData then
      ((tvlCurrent - tvl15dAgo) / tvl15dAgo) * 100
    else 0
  let baselines := baseline_counters snapshot15 snapshots
  let periodTotals :=
    if hasHistoricalData then calculate_period_metrics snapshots fifteenDaysAgoTs
    else (pool.dynamicData.volume24h * 15, pool.dynamicData.fees24h * 15)
  let volumeChangePercent :=
    if hasHistoricalData ∧ 0 < baselines.1 ∧ 0 < periodTotals.1 ∧
        baselines.1 < current_cumulative_volume snapshots then
      ((current_cumulative_volume snapshots - baselines.1) / baselines.1) * 100
    else 0
  let feesChangePercent :=
    if hasHistoricalData ∧ 0 < baselines.2 ∧ 0 < periodTotals.2 ∧
        baselines.2 < current_cumulative_fees snapshots then
      ((current_cumulative_fees snapshots - baselines.2) / baselines.2) * 100
    else 0
  { pool_name := pool.name
    pool_address := poolAddress
    pool_url := generate_pool_url pool.blockchain pool.apiVersion poolAddress
    tvl_current := tvlCurrent
    tvl_15_days_ago := tvl15dAgo
    tvl_change_percent := tvlChangePercent
    volume_15_days := periodTotals.1
    volume_change_percent := volumeChangePercent
    fees_15_days := periodTotals.2
    fees_change_percent := feesChangePercent
    apr_current := extract_apr pool tvlCurrent periodTotals.2
    swap_fee := pool.swapFee
    rebalance_count_15d := none
    boosted_apr := none }

/-- The estimated-rather-than-measured flag computed by
`format_metrics_for_email` (lines 411-415). -/
def is_v3_estimated (m : PoolMetrics) : Bool :=
  decide (m.tvl_change_percent = 0) && decide (m.tvl_current = m.tvl_15_days_ago)
    && decide (0 < m.tvl_current) && decide (m.volume_change_percent = 0)
    && decide (m.fees_change_percent = 0)

/-- The fetch-then-reconcile pipeline of
`MetricsCalculator.calculate_pool_metrics`: fetch 30 days of snapshots,
look up the snapshot nearest `now - 15 days` (a 5-day fetch plus the
Locator), then run the pure core.  (The code reads the clock a few
microseconds apart for the two fetches; the model uses one `now`, which
only narrows the already-void tolerance window.) -/
def calculate_pool_metrics_pipeline (poolAddress : String) (pool : PoolData)
    (db : List Snapshot) (now : Int) : PoolMetrics :=
  let snapshots := get_pool_snapshots db now 30
  let fifteenDaysAgoTs := now - 15 * 86400
  let snapshot15 := get_snapshot_at_timestamp db fifteenDaysAgoTs now
  calculate_pool_metrics poolAddress pool snapshots snapshot15 fifteenDaysAgoTs

/-- Modelled from the spec: the volume percent-change rule exactly as claim
C9 words it — step 4's formula applied to the baseline counter versus the
just-computed 15-day period total, when history exists and both are
positive; otherwise 0.  (The fees variant is word-for-word symmetric.) -/
def volume_change_percent_claim (snapshots : List Snapshot)
    (snapshot15 : Option Snapshot) (startTimestamp : Int) : ℚ :=
  if snapshots ≠ [] ∧ 0 < (baseline_counters snapshot15 snapshots).1 ∧
      0 < (calculate_period_metrics snapshots startTimestamp).1 then
    (((calculate_period_metrics snapshots startTimestamp).1 -
        (baseline_counters snapshot15 snapshots).1) /
      (baseline_counters snapshot15 snapshots).1) * 100
  else 0

/-! ## Portfolio Aggregator (`calculate_multi_pool_metrics`) -/

/-- Descending 15-day-volume relation:
`sorted(key=lambda p: p.volume_15_days, reverse=True)`. -/
def volGe (p q : PoolMetrics) : Prop :=
  q.volume_15_days ≤ p.volume_15_days

instance : DecidableRel volGe := fun p q =>
  inferInstanceAs (Decidable (q.volume_15_days ≤ p.volume_15_days))

instance : IsTotal PoolMetrics volGe :=
  ⟨fun p q => le_total q.volume_15_days p.volume_15_days⟩

instance : IsTrans PoolMetrics volGe :=
  ⟨fun _ _ _ h h' => le_trans h' h⟩

/-- Descending absolute-TVL-growth relation:
`sorted(key=lambda p: p.tvl_current - p.tvl_15_days_ago, reverse=True)`. -/
def tvlGrowthGe (p q : PoolMetrics) : Prop :=
  q.tvl_current - q.tvl_15_days_ago ≤ p.tvl_current - p.tvl_15_days_ago

instance : DecidableRel tvlGrowthGe := fun p q =>
  inferInstanceAs
    (Decidable (q.tvl_current - q.tvl_15_days_ago ≤ p.tvl_current - p.tvl_15_days_ago))

instance : IsTotal PoolMetrics tvlGrowthGe :=
  ⟨fun p q => le_total _ _⟩

instance : IsTrans PoolMetrics tvlGrowthGe :=
  ⟨fun _ _ _ h h' => le_trans h' h⟩

/-- Descending swap-fee relation. -/
def swapFeeGe (p q : PoolMetrics) : Prop :=
  q.swap_fee ≤ p.swap_fee

instance : DecidableRel swapFeeGe := fun p q =>
  inferInstanceAs (Decidable (q.swap_fee ≤ p.swap_fee))

instance : IsTotal PoolMetrics swapFeeGe :=
  ⟨fun p q => le_total _ _⟩

instance : IsTrans PoolMetrics swapFeeGe :=
  ⟨fun _ _ _ h h' => le_trans h' h⟩

/-- Descending rebalance-count relation (applied to pools whose count is
non-`None`, where `getD 0` is the stored value). -/
def rebalanceGe (p q : PoolMetrics) : Prop :=
  q.rebalance_count_15d.getD 0 ≤ p.rebalance_count_15d.getD 0

instance : DecidableRel rebalanceGe := fun p q =>
  inferInstanceAs
    (Decidable (q.rebalance_count_15d.getD 0 ≤ p.rebalance_count_15d.getD 0))

instance : IsTotal PoolMetrics rebalanceGe :=
  ⟨fun p q => le_total _ _⟩

instance : IsTrans PoolMetrics rebalanceGe :=
  ⟨fun _ _ _ h h' => le_trans h' h⟩

/-- Descending boosted-APR relation (applied to pools whose boosted APR is
non-`None`). -/
def boostedGe (p q : PoolMetrics) : Prop :=
  q.boosted_apr.getD 0 ≤ p.boosted_apr.getD 0

instance : DecidableRel boostedGe := fun p q =>
  inferInstanceAs (Decidable (q.boosted_apr.getD 0 ≤ p.boosted_apr.getD 0))

instance : IsTotal PoolMetrics boostedGe :=
  ⟨fun p q => le_total _ _⟩

instance : IsTrans PoolMetrics boostedGe :=
  ⟨fun _ _ _ h h' => le_trans h' h⟩

/-- `total_volume = sum(p.volume_15_days for p in pools_metrics)`. -/
def total_volume (pools : List PoolMetrics) : ℚ :=
  (pools.map fun p => p.volume_15_days).sum

/-- One entry of `top_3_volume`: `(name, volume, percent-of-total, url)`,
with the percentage `0` unless the batch total is positive. -/
def volume_entry (totalVol : ℚ) (p : PoolMetrics) : String × ℚ × ℚ × String :=
  (p.pool_name, p.volume_15_days,
    if 0 < totalVol then p.volume_15_days / totalVol * 100 else 0,
    p.pool_url)

/-- One entry of `top_3_tvl`: `(name, absolute increase, percent change,
url)`. -/
def tvl_entry (p : PoolMetrics) : String × ℚ × ℚ × String :=
  (p.pool_name, p.tvl_current - p.tvl_15_days_ago, p.tvl_change_percent,
    p.pool_url)

/-- The aggregation body of `calculate_multi_pool_metrics` (lines 501-584),
applied to the per-pool metrics that were computed successfully, in request
order. -/
def aggregate_pool_metrics (poolsMetrics : List PoolMetrics)
    (rankingBy : List String) : MultiPoolMetrics :=
  let top3Tvl := ((poolsMetrics.insertionSort tvlGrowthGe).take 3).map tvl_entry
  let totalVol := total_volume poolsMetrics
  let top3Volume :=
    ((poolsMetrics.insertionSort volGe).take 3).map (volume_entry totalVol)
  let totalFees : ℚ := (poolsMetrics.map fun p => p.fees_15_days).sum
  let totalTvl : ℚ := (poolsMetrics.map fun p => p.tvl_current).sum
  let weightedApr : ℚ :=
    if 0 < totalTvl then
      poolsMetrics.foldl
        (fun acc p =>
          match p.apr_current with
          | some a => if a = 0 then acc else acc + a * (p.tvl_current / totalTvl)
          | none => acc)
        0
    else 0
  let swapFeeRanking :=
    if "swap_fee" ∈ rankingBy then
      some (((poolsMetrics.insertionSort swapFeeGe).take 3).map
        fun p => (p.pool_name, p.swap_fee, p.pool_url))
    else none
  let rebalanceable := poolsMetrics.filter fun p =>
    decide (p.rebalance_count_15d ≠ none)
  let rebalanceRanking :=
    if "rebalance_count" ∈ rankingBy ∧ rebalanceable ≠ [] then
      some (((rebalanceable.insertionSort rebalanceGe).take 3).map
        fun p => (p.pool_name, p.rebalance_count_15d.getD 0, p.pool_url))
    else none
  let boosted := poolsMetrics.filter fun p => decide (p.boosted_apr ≠ none)
  let boostedRanking :=
    if "boosted_apr" ∈ rankingBy ∧ boosted ≠ [] then
      some (((boosted.insertionSort boostedGe).take 3).map
        fun p => (p.pool_name, p.boosted_apr.getD 0, p.pool_url))
    else none
  { pools := poolsMetrics
    top_3_by_volume := top3Volume
    top_3_by_tvl := top3Tvl
    swap_fee_ranking := swapFeeRanking
    rebalance_count_ranking := rebalanceRanking
    boosted_apr_ranking := boostedRanking
    total_fees := totalFees
    total_apr := weightedApr }

/-- `MetricsCalculator.calculate_multi_pool_metrics` (lines 470-584) with the
per-pool pipeline supplied as an oracle: `fetchMetrics a = none` models a
per-pool exception (caught, logged, pool skipped), `some m` a success.  When
no pool succeeds the batch fails with the `ValueError`; otherwise the
successes are aggregated in request order. -/
def calculate_multi_pool_metrics (fetchMetrics : String → Option PoolMetrics)
    (poolAddresses : List String) (rankingBy : List String) :
    Except String MultiPoolMetrics :=
  match poolAddresses.filterMap fetchMetrics with
  | [] => Except.error "No valid pool metrics could be calculated"
  | m :: ms => Except.ok (aggregate_pool_metrics (m :: ms) rankingBy)

/-! ## Concrete fixtures used by witnesses and counterexamples -/

/-- A v2-schema pool payload with positive TVL and live 24h figures. -/
def v2PoolFixture : PoolData :=
  { name := "V2 Pool"
    apiVersion := "v2"
    blockchain := "ethereum"
    swapFee := 1 / 1000
    dynamicData :=
      { totalLiquidity := 100
        volume24h := 2
        fees24h := 1
        totalApr := none
        aprItems := []
        apr := none }
    hasTotalShares := false
    apr := none }

/-- A v3-schema pool payload with positive TVL and live 24h figures. -/
def v3PoolFixture : PoolData :=
  { name := "V3 Pool"
    apiVersion := "v3"
    blockchain := "ethereum"
    swapFee := 1 / 1000
    dynamicData :=
      { totalLiquidity := 100
        volume24h := 2
        fees24h := 1
        totalApr := none
        aprItems := []
        apr := none }
    hasTotalShares := false
    apr := none }

/-- A pool payload whose only APR source is a present-but-zero `totalApr`
key (and zero TVL so the fee-implied fallback cannot fire). -/
def zeroAprPoolFixture : PoolData :=
  { name := "Zero APR Pool"
    apiVersion := "v3"
    blockchain := "ethereum"
    swapFee := 0
    dynamicData :=
      { totalLiquidity := 0
        volume24h := 0
        fees24h := 0
        totalApr := some 0
        aprItems := []
        apr := none }
    hasTotalShares := false
    apr := none }

/-- A pre-window snapshot with cumulative volume 50000 and fees 500. -/
def preWindowSnap : Snapshot :=
  { timestamp := 0, liquidity := 800000, swapVolume := 50000, swapFees := 500 }

/-- An in-window snapshot with cumulative volume 90000 and fees 900. -/
def inWindowSnap : Snapshot :=
  { timestamp := 20, liquidity := 1000000, swapVolume := 90000, swapFees := 900 }

/-- A minimal `PoolMetrics` record builder for aggregator fixtures:
name, TVL, 15-day volume and fees, and APR. -/
def mkAggFixture (nm : String) (tvl vol fees : ℚ) (apr : Option ℚ) :
    PoolMetrics :=
  { pool_name := nm
    pool_address := nm
    pool_url := nm
    tvl_current := tvl
    tvl_15_days_ago := 0
    tvl_change_percent := 0
    volume_15_days := vol
    volume_change_percent := 0
    fees_15_days := fees
    fees_change_percent := 0
    apr_current := apr
    swap_fee := 0
    rebalance_count_15d := none
    boosted_apr := none }

/-! ## Helper lemmas -/

theorem minByDist_mem (target : Int) :
    ∀ (xs : List Snapshot) (x : Snapshot), minByDist target x xs ∈ x :: xs := by
  intro xs
  induction xs with
  | nil => intro x; simp [minByDist]
  | cons b bs ih =>
    intro x
    have h := ih (if (b.timestamp - target).natAbs < (x.timestamp - target).natAbs
      then b else x)
    simp only [minByDist, List.foldl_cons] at *
    rcases List.mem_cons.mp h with h' | h'
    · rw [h']
      split <;> simp
    · simp [h']

theorem minByDist_le (target : Int) :
    ∀ (xs : List Snapshot) (x : Snapshot), ∀ a ∈ x :: xs,
      ((minByDist target x xs).timestamp - target).natAbs ≤
        (a.timestamp - target).natAbs := by
  intro xs
  induction xs with
  | nil =>
    intro x a ha
    simp only [List.mem_singleton] at ha
    subst ha
    simp [minByDist]
  | cons b bs ih =>
    intro x a ha
    have hstep : ((minByDist target x (b :: bs)).timestamp - target).natAbs =
        ((minByDist target
          (if (b.timestamp - target).natAbs < (x.timestamp - target).natAbs
            then b else x) bs).timestamp - target).natAbs := by
      simp [minByDist]
    rw [hstep]
    rcases List.mem_cons.mp ha with h' | h'
    · rw [h']
      have := ih (if (b.timestamp - target).natAbs < (x.timestamp - target).natAbs
          then b else x) _ (List.mem_cons_self _ _)
      refine le_trans this ?_
      split <;> omega
    · rcases List.mem_cons.mp h' with h'' | h''
      · rw [h'']
        have := ih (if (b.timestamp - target).natAbs < (x.timestamp - target).natAbs
            then b else x) _ (List.mem_cons_self _ _)
        refine le_trans this ?_
        split <;> omega
      · exact ih _ _ (List.mem_cons_of_mem _ h'')


theorem maxByTimestamp_mem :
    ∀ (xs : List Snapshot) (x : Snapshot), maxByTimestamp x xs ∈ x :: xs := by
  intro xs
  induction xs with
  | nil => intro x; simp [maxByTimestamp]
  | cons b bs ih =>
    intro x
    have h := ih (if x.timestamp < b.timestamp then b else x)
    simp only [maxByTimestamp, List.foldl_cons] at *
    rcases List.mem_cons.mp h with h' | h'
    · rw [h']
      split <;> simp
    · simp [h']

theorem le_maxByTimestamp :
    ∀ (xs : List Snapshot) (x : Snapshot), ∀ a ∈ x :: xs,
      a.timestamp ≤ (maxByTimestamp x xs).timestamp := by
  intro xs
  induction xs with
  | nil =>
    intro x a ha
    simp only [List.mem_singleton] at ha
    subst ha
    simp [maxByTimestamp]
  | cons b bs ih =>
    intro x a ha
    have hstep : (maxByTimestamp x (b :: bs)).timestamp =
        (maxByTimestamp (if x.timestamp < b.timestamp then b else x) bs).timestamp := by
      simp [maxByTimestamp]
    rw [hstep]
    rcases List.mem_cons.mp ha with h' | h'
    · rw [h']
      have := ih (if x.timestamp < b.timestamp then b else x) _
        (List.mem_cons_self _ _)
      refine le_trans ?_ this
      split <;> omega
    · rcases List.mem_cons.mp h' with h'' | h''
      · rw [h'']
        have := ih (if x.timestamp < b.timestamp then b else x) _
          (List.mem_cons_self _ _)
        refine le_trans ?_ this
        split <;> omega
      · exact ih _ _ (List.mem_cons_of_mem _ h'')

theorem sorted_getLast_ts_max :
    ∀ (rest : List Snapshot) (e : Snapshot), List.Sorted tsLE (e :: rest) →
      ∀ a ∈ e :: rest,
        a.timestamp ≤ ((e :: rest).getLast (List.cons_ne_nil _ _)).timestamp := by
  intro rest
  induction rest with
  | nil =>
    intro e _ a ha
    simp only [List.mem_singleton] at ha
    subst ha
    simp
  | cons y t ih =>
    intro e h a ha
    have hlast : ((e :: y :: t).getLast (List.cons_ne_nil _ _)) =
        ((y :: t).getLast (List.cons_ne_nil _ _)) := List.getLast_cons _
    rw [hlast]
    rcases List.mem_cons.mp ha with h' | h'
    · rw [h']
      exact List.rel_of_sorted_cons h _ (List.getLast_mem _)
    · exact ih y (List.Sorted.of_cons h) a h'

/-! ## Claim theorems -/

/-- When every snapshot is farther than the tolerance from the target, the
Locator returns `none`. -/
theorem find_nearest_none_of_far (snapshots : List Snapshot) (target : Int)
    (hfar : ∀ t ∈ snapshots, 86400 < (t.timestamp - target).natAbs) :
    find_nearest_snapshot snapshots target = none := by
  unfold find_nearest_snapshot
  have : snapshots.filter
      (fun s => decide ((s.timestamp - target).natAbs ≤ 86400)) = [] := by
    rw [List.filter_eq_nil_iff]
    intro t ht
    simpa using not_le.mpr (hfar t ht)
  rw [this]

/-- C10: the Locator accepts exactly the snapshots within 86400 seconds of the
target, returns a distance-minimizing accepted snapshot when one exists, and
`none` when every snapshot is farther than 86400 seconds. -/
theorem c10_find_nearest_snapshot (snapshots : List Snapshot) (target : Int) :
    (∀ s, find_nearest_snapshot snapshots target = some s →
        s ∈ snapshots ∧ (s.timestamp - target).natAbs ≤ 86400 ∧
          ∀ t ∈ snapshots, (t.timestamp - target).natAbs ≤ 86400 →
            (s.timestamp - target).natAbs ≤ (t.timestamp - target).natAbs)
    ∧ ((∃ t ∈ snapshots, (t.timestamp - target).natAbs ≤ 86400) →
        ∃ s, find_nearest_snapshot snapshots target = some s)
    ∧ ((∀ t ∈ snapshots, 86400 < (t.timestamp - target).natAbs) →
        find_nearest_snapshot snapshots target = none) := by
  refine ⟨?_, ?_, ?_⟩
  · intro s hs
    unfold find_nearest_snapshot at hs
    rcases hnear : snapshots.filter
        (fun s => decide ((s.timestamp - target).natAbs ≤ 86400)) with _ | ⟨x, xs⟩
    · rw [hnear] at hs; cases hs
    · rw [hnear] at hs
      have hsome : s = minByDist target x xs := by
        simpa using hs.symm
      subst hsome
      have hmem : minByDist target x xs ∈ x :: xs := minByDist_mem target xs x
      have hmem' : minByDist target x xs ∈ snapshots.filter
          (fun s => decide ((s.timestamp - target).natAbs ≤ 86400)) := by
        rw [hnear]; exact hmem
      have hmem'' := List.mem_filter.mp hmem'
      refine ⟨hmem''.1, by simpa using hmem''.2, ?_⟩
      intro t ht htol
      have htmem : t ∈ x :: xs := by
        rw [← hnear]
        exact List.mem_filter.mpr ⟨ht, by simpa using htol⟩
      exact minByDist_le target xs x t htmem
  · rintro ⟨t, ht, htol⟩
    unfold find_nearest_snapshot
    rcases hnear : snapshots.filter
        (fun s => decide ((s.timestamp - target).natAbs ≤ 86400)) with _ | ⟨x, xs⟩
    · exfalso
      have : t ∈ snapshots.filter
          (fun s => decide ((s.timestamp - target).natAbs ≤ 86400)) :=
        List.mem_filter.mpr ⟨ht, by simpa using htol⟩
      rw [hnear] at this
      cases this
    · rw [hnear]
      exact ⟨minByDist target x xs, rfl⟩
  · exact find_nearest_none_of_far snapshots target

/-- C10 witness: a snapshot exactly 86400 seconds from the target is accepted,
one at 86401 seconds is rejected. -/
theorem c10_witness :
    (∀ t ∈ [Snapshot.mk 86401 0 0 0], 86400 < (t.timestamp - 0).natAbs)
    ∧ find_nearest_snapshot [Snapshot.mk 86401 0 0 0] 0 = none
    ∧ (∃ t ∈ [Snapshot.mk 86400 0 0 0], (t.timestamp - 0).natAbs ≤ 86400)
    ∧ ∃ s, find_nearest_snapshot [Snapshot.mk 86400 0 0 0] 0 = some s := by
  refine ⟨by decide, (c10_find_nearest_snapshot _ 0).2.2 (by decide),
    by decide, (c10_find_nearest_snapshot _ 0).2.1 (by decide)⟩

/-- C3: the 15-day baseline lookup is unsatisfiable.  Every snapshot the
5-day fetch can return has `timestamp >= now - 5 days`, so its distance to a
target 15 days in the past is at least 10 days, far above the 86400-second
tolerance: `get_snapshot_at_timestamp` returns `none` for every stored
series and every clock value, and the reconciliation pipeline therefore
behaves exactly as if the near-target branch did not exist (the baseline
comes from the 30-day snapshot list or the no-history fallbacks). -/
theorem c3_snapshot_lookup_returns_none (db : List Snapshot) (now : Int)
    (poolAddress : String) (pool : PoolData) :
    get_snapshot_at_timestamp db (now - 15 * 86400) now = none
    ∧ calculate_pool_metrics_pipeline poolAddress pool db now
        = calculate_pool_metrics poolAddress pool (get_pool_snapshots db now 30)
            none (now - 15 * 86400) := by
  have hnone : get_snapshot_at_timestamp db (now - 15 * 86400) now = none := by
    unfold get_snapshot_at_timestamp
    by_cases hempty : get_pool_snapshots db now 5 = []
    · simp [hempty]
    · rw [if_neg hempty]
      refine find_nearest_none_of_far _ _ ?_
      intro t ht
      have hwin : now - 5 * 86400 ≤ t.timestamp := by
        have := (List.mem_filter.mp ht).2
        simpa [get_pool_snapshots] using this
      omega
  refine ⟨hnone, ?_⟩
  unfold calculate_pool_metrics_pipeline
  simp only [hnone]

/-- C1: for the trailing window starting at `startTimestamp`, the period
volume and fees equal `max 0 (latest.counter - baseline.counter)`, where
`latest` is an in-window snapshot of maximal timestamp and the baseline is a
strictly-pre-window snapshot of maximal timestamp (or, when no pre-window
snapshot exists, an in-window snapshot of minimal timestamp); the result is
never negative, and it is `(0, 0)` when no snapshot lies in the window. -/
theorem c1_period_metrics (snapshots : List Snapshot) (startTimestamp : Int) :
    (0 ≤ (calculate_period_metrics snapshots startTimestamp).1
      ∧ 0 ≤ (calculate_period_metrics snapshots startTimestamp).2)
    ∧ ((∀ s ∈ snapshots, s.timestamp < startTimestamp) →
        calculate_period_metrics snapshots startTimestamp = (0, 0))
    ∧ ((∃ s ∈ snapshots, startTimestamp ≤ s.timestamp) →
        ∃ latest ∈ snapshots, ∃ base ∈ snapshots,
          startTimestamp ≤ latest.timestamp
          ∧ (∀ s ∈ snapshots, startTimestamp ≤ s.timestamp →
              s.timestamp ≤ latest.timestamp)
          ∧ ((∃ p ∈ snapshots, p.timestamp < startTimestamp) →
              base.timestamp < startTimestamp
              ∧ ∀ p ∈ snapshots, p.timestamp < startTimestamp →
                  p.timestamp ≤ base.timestamp)
          ∧ ((∀ s ∈ snapshots, startTimestamp ≤ s.timestamp) →
              ∀ s ∈ snapshots, base.timestamp ≤ s.timestamp)
          ∧ calculate_period_metrics snapshots startTimestamp
              = (max 0 (latest.swapVolume - base.swapVolume),
                 max 0 (latest.swapFees - base.swapFees))) := by
  refine ⟨?_, ?_, ?_⟩
  · unfold calculate_period_metrics
    split
    · simp
    · split
      · simp
      · split
        · simp
        · exact ⟨le_max_left _ _, le_max_left _ _⟩
  · intro h
    have hfilter :
        (snapshots.filter fun s => decide (startTimestamp ≤ s.timestamp)) = [] := by
      rw [List.filter_eq_nil_iff]
      intro s hs
      simpa using not_le.mpr (h s hs)
    unfold calculate_period_metrics
    by_cases hs : snapshots = []
    · simp [hs]
    · simp [hs, hfilter]
  · rintro ⟨s0, hs0, hs0w⟩
    have hsnaps : snapshots ≠ [] := by rintro rfl; cases hs0
    have hs0P : s0 ∈ snapshots.filter fun s => decide (startTimestamp ≤ s.timestamp) :=
      List.mem_filter.mpr ⟨hs0, by simpa using hs0w⟩
    have hPne :
        (snapshots.filter fun s => decide (startTimestamp ≤ s.timestamp)) ≠ [] := by
      intro h
      rw [h] at hs0P
      cases hs0P
    have hsortne :
        ((snapshots.filter fun s =>
          decide (startTimestamp ≤ s.timestamp)).insertionSort tsLE) ≠ [] := by
      intro h
      apply hPne
      have hlen := List.length_insertionSort tsLE
        (snapshots.filter fun s => decide (startTimestamp ≤ s.timestamp))
      rw [h] at hlen
      exact List.length_eq_zero.mp hlen.symm
    obtain ⟨e, rest, hsort⟩ := List.exists_cons_of_ne_nil hsortne
    have hsorted : List.Sorted tsLE (e :: rest) := by
      rw [← hsort]
      exact List.sorted_insertionSort tsLE _
    have hmemP : ∀ a, a ∈ e :: rest ↔
        a ∈ snapshots.filter fun s => decide (startTimestamp ≤ s.timestamp) := by
      intro a
      rw [← hsort]
      exact List.mem_insertionSort tsLE
    have hlatest_mem : ((e :: rest).getLast (List.cons_ne_nil _ _)) ∈
        snapshots.filter fun s => decide (startTimestamp ≤ s.timestamp) :=
      (hmemP _).mp (List.getLast_mem _)
    have hlatest_snap := (List.mem_filter.mp hlatest_mem).1
    have hlatest_win : startTimestamp ≤
        ((e :: rest).getLast (List.cons_ne_nil _ _)).timestamp := by
      have := (List.mem_filter.mp hlatest_mem).2
      simpa using this
    have hlatest_max : ∀ s ∈ snapshots, startTimestamp ≤ s.timestamp →
        s.timestamp ≤ ((e :: rest).getLast (List.cons_ne_nil _ _)).timestamp := by
      intro s hs hw
      exact sorted_getLast_ts_max rest e hsorted s
        ((hmemP s).mpr (List.mem_filter.mpr ⟨hs, by simpa using hw⟩))
    refine ⟨(e :: rest).getLast (List.cons_ne_nil _ _), hlatest_snap, ?_⟩
    rcases hpre : snapshots.filter fun s => decide (s.timestamp < startTimestamp)
      with _ | ⟨p, ps⟩
    · -- no strictly-pre-window snapshot: baseline falls back to the earliest
      -- in-window snapshot, the head of the sorted in-window list
      have hemem : e ∈ snapshots.filter fun s =>
          decide (startTimestamp ≤ s.timestamp) :=
        (hmemP e).mp (List.mem_cons_self _ _)
      refine ⟨e, (List.mem_filter.mp hemem).1, hlatest_win, hlatest_max, ?_, ?_, ?_⟩
      · rintro ⟨q, hq, hqlt⟩
        exfalso
        have : q ∈ snapshots.filter fun s => decide (s.timestamp < startTimestamp) :=
          List.mem_filter.mpr ⟨hq, by simpa using hqlt⟩
        rw [hpre] at this
        cases this
      · intro hall s hs
        have hsP : s ∈ e :: rest :=
          (hmemP s).mpr (List.mem_filter.mpr ⟨hs, by simpa using hall s hs⟩)
        rcases List.mem_cons.mp hsP with h' | h'
        · rw [h']
        · exact List.rel_of_sorted_cons hsorted s h'
      · unfold calculate_period_metrics
        rw [if_neg hsnaps, if_neg hPne, hsort, hpre]
    · -- a strictly-pre-window snapshot exists: baseline is its timestamp-max
      have hbmem : maxByTimestamp p ps ∈
          snapshots.filter fun s => decide (s.timestamp < startTimestamp) := by
        rw [hpre]
        exact maxByTimestamp_mem ps p
      have hbsnap := (List.mem_filter.mp hbmem).1
      have hblt : (maxByTimestamp p ps).timestamp < startTimestamp := by
        have := (List.mem_filter.mp hbmem).2
        simpa using this
      refine ⟨maxByTimestamp p ps, hbsnap, hlatest_win, hlatest_max, ?_, ?_, ?_⟩
      · intro _
        refine ⟨hblt, ?_⟩
        intro q hq hqlt
        have hqpre : q ∈ p :: ps := by
          rw [← hpre]
          exact List.mem_filter.mpr ⟨hq, by simpa using hqlt⟩
        exact le_maxByTimestamp ps p q hqpre
      · intro hall
        exact absurd (hall _ hbsnap) (not_le.mpr hblt)
      · unfold calculate_period_metrics
        rw [if_neg hsnaps, if_neg hPne, hsort, hpre]

/-- C1 witness: a window with one pre-window and one in-window snapshot,
instantiating the empty-window conjunct at a shifted window start. -/
theorem c1_witness :
    (∀ s ∈ [Snapshot.mk 20 1000000 90000 900], s.timestamp < (100 : Int))
    ∧ calculate_period_metrics [Snapshot.mk 20 1000000 90000 900] 100 = (0, 0) := by
  exact ⟨by decide,
    (c1_period_metrics [Snapshot.mk 20 1000000 90000 900] 100).2.1 (by decide)⟩

/-- C2 (amended): reconciling with an empty snapshot history sets TVL percent
change to 0 and estimates the 15-day volume and fees as the live 24h figures
times 15; the TVL baseline equals the current TVL only for v3-schema pools
(for v2-schema pools it falls back to the `0.0` initializer), and the
estimated flag is set exactly for v3-schema pools with positive TVL. -/
theorem c2_no_history_fallback (poolAddress : String) (pool : PoolData)
    (ts : Int) :
    (calculate_pool_metrics poolAddress pool [] none ts).tvl_15_days_ago
        = (if pool.apiVersion = "v3" then pool.dynamicData.totalLiquidity else 0)
    ∧ (calculate_pool_metrics poolAddress pool [] none ts).tvl_change_percent = 0
    ∧ (calculate_pool_metrics poolAddress pool [] none ts).volume_15_days
        = pool.dynamicData.volume24h * 15
    ∧ (calculate_pool_metrics poolAddress pool [] none ts).fees_15_days
        = pool.dynamicData.fees24h * 15
    ∧ (pool.apiVersion = "v3" → 0 < pool.dynamicData.totalLiquidity →
        is_v3_estimated (calculate_pool_metrics poolAddress pool [] none ts) = true)
    ∧ (pool.apiVersion ≠ "v3" → 0 < pool.dynamicData.totalLiquidity →
        is_v3_estimated (calculate_pool_metrics poolAddress pool [] none ts) = false) := by
  refine ⟨?_, ?_, ?_, ?_, ?_, ?_⟩
  · simp [calculate_pool_metrics, baseline_tvl]
  · simp [calculate_pool_metrics]
  · simp [calculate_pool_metrics]
  · simp [calculate_pool_metrics]
  · intro hv hpos
    simp [calculate_pool_metrics, is_v3_estimated, baseline_tvl, hv, hpos]
  · intro hv hpos
    simp [calculate_pool_metrics, is_v3_estimated, baseline_tvl, hv,
      ne_of_gt hpos]

/-- C2 counterexample: for a v2-schema pool with TVL 100 and empty history,
the code's TVL baseline is 0, not the current TVL the claim demands for
every pool. -/
theorem c2_counterexample_v2_baseline :
    (calculate_pool_metrics "0xpool" v2PoolFixture [] none 0).tvl_current = 100
    ∧ (calculate_pool_metrics "0xpool" v2PoolFixture [] none 0).tvl_15_days_ago
        = 0 := by
  constructor <;> decide

/-- C2 witness: the amended no-history fallback at a concrete v3 pool. -/
theorem c2_witness :
    v3PoolFixture.apiVersion = "v3"
    ∧ 0 < v3PoolFixture.dynamicData.totalLiquidity
    ∧ (calculate_pool_metrics "0xpool" v3PoolFixture [] none 0).volume_15_days
        = v3PoolFixture.dynamicData.volume24h * 15
    ∧ is_v3_estimated (calculate_pool_metrics "0xpool" v3PoolFixture [] none 0)
        = true := by
  refine ⟨rfl, by decide,
    (c2_no_history_fallback "0xpool" v3PoolFixture 0).2.2.1,
    (c2_no_history_fallback "0xpool" v3PoolFixture 0).2.2.2.2.1 rfl (by decide)⟩

/-- C9 (amended): the volume (resp. fees) percent change equals
`(cumulative - baseline) / baseline * 100` computed from the **last
snapshot's cumulative counter**, and only when history exists, the baseline
counter is positive, the computed 15-day period total is positive, and the
cumulative counter strictly exceeds the baseline; in every other case it
is 0.  (The claim's version of the formula — using the just-computed period
total instead of the cumulative counter — is refuted by
`c9_counterexample`.) -/
theorem c9_change_percent (poolAddress : String) (pool : PoolData)
    (snapshots : List Snapshot) (snapshot15 : Option Snapshot) (ts : Int) :
    (calculate_pool_metrics poolAddress pool snapshots snapshot15 ts).volume_change_percent
      = (if snapshots ≠ [] ∧ 0 < (baseline_counters snapshot15 snapshots).1 ∧
            0 < (calculate_period_metrics snapshots ts).1 ∧
            (baseline_counters snapshot15 snapshots).1 <
              current_cumulative_volume snapshots then
          ((current_cumulative_volume snapshots -
              (baseline_counters snapshot15 snapshots).1) /
            (baseline_counters snapshot15 snapshots).1) * 100
        else 0)
    ∧ (calculate_pool_metrics poolAddress pool snapshots snapshot15 ts).fees_change_percent
      = (if snapshots ≠ [] ∧ 0 < (baseline_counters snapshot15 snapshots).2 ∧
            0 < (calculate_period_metrics snapshots ts).2 ∧
            (baseline_counters snapshot15 snapshots).2 <
              current_cumulative_fees snapshots then
          ((current_cumulative_fees snapshots -
              (baseline_counters snapshot15 snapshots).2) /
            (baseline_counters snapshot15 snapshots).2) * 100
        else 0) := by
  by_cases hs : snapshots = []
  · subst hs
    constructor <;> simp [calculate_pool_metrics]
  · constructor <;> simp [calculate_pool_metrics, hs]

/-- C9 counterexample: baseline counter 50000, latest cumulative counter
90000, period total 40000.  The code reports +80% (cumulative vs baseline);
the claim's formula (period total vs baseline) would give -20%. -/
theorem c9_counterexample :
    (calculate_pool_metrics "0xpool" v2PoolFixture
        [preWindowSnap, inWindowSnap] none 10).volume_change_percent = 80
    ∧ volume_change_percent_claim [preWindowSnap, inWindowSnap] none 10 = -20 := by
  have hper : calculate_period_metrics [preWindowSnap, inWindowSnap] 10 = (40000, 400) := by
    norm_num [calculate_period_metrics, preWindowSnap, inWindowSnap,
      List.insertionSort, List.orderedInsert, tsLE, maxByTimestamp, List.filter]
    intro h
    cases h
  have hper2 : calculate_period_metrics
      [Snapshot.mk 0 800000 50000 500, Snapshot.mk 20 1000000 90000 900] 10
      = (40000, 400) := hper
  have hne : ([Snapshot.mk 0 800000 50000 500,
      Snapshot.mk 20 1000000 90000 900] : List Snapshot) ≠ [] :=
    List.cons_ne_nil _ _
  constructor
  · norm_num [calculate_pool_metrics, hper2, baseline_counters,
      current_cumulative_volume, preWindowSnap, inWindowSnap, hne]
  · rw [volume_change_percent_claim, hper]
    norm_num [baseline_counters, preWindowSnap, inWindowSnap]
    exact List.cons_ne_nil _ _

theorem weighted_foldl_eq (T : ℚ) (hT : T ≠ 0) :
    ∀ (l : List PoolMetrics) (acc : ℚ),
      l.foldl
          (fun acc p =>
            match p.apr_current with
            | some a => if a = 0 then acc else acc + a * (p.tvl_current / T)
            | none => acc)
          acc
        = acc + (l.map fun p =>
            match p.apr_current with
            | some a => a * p.tvl_current
            | none => 0).sum / T := by
  intro l
  induction l with
  | nil => intro acc; simp
  | cons p ps ih =>
    intro acc
    simp only [List.foldl_cons, List.map_cons, List.sum_cons]
    rcases hap : p.apr_current with _ | a
    · dsimp only
      rw [ih]
      ring
    · by_cases ha : a = 0
      · subst ha
        dsimp only
        rw [if_pos rfl, ih]
        ring
      · dsimp only
        rw [if_neg ha, ih]
        field_simp
        ring

/-- C4: when the batch TVL is positive, `totalApr` is the TVL-weighted
average APR with all-batch TVL in the denominator (pools with null APR
contribute their TVL to the denominator and nothing to the numerator), and
`totalFees` is the plain sum of the pools' 15-day fees. -/
theorem c4_weighted_totals (pools : List PoolMetrics) (rankingBy : List String)
    (h : 0 < (pools.map fun p => p.tvl_current).sum) :
    (aggregate_pool_metrics pools rankingBy).total_apr
      = (pools.map fun p =>
          match p.apr_current with
          | some a => a * p.tvl_current
          | none => 0).sum / (pools.map fun p => p.tvl_current).sum
    ∧ (aggregate_pool_metrics pools rankingBy).total_fees
      = (pools.map fun p => p.fees_15_days).sum := by
  constructor
  · show (if 0 < (pools.map fun p => p.tvl_current).sum then _ else 0) = _
    rw [if_pos h, weighted_foldl_eq _ (ne_of_gt h) pools 0]
    ring
  · rfl

/-- C4 witness: three pools with TVLs 100/300/100 and APRs 0.10/null/0.20
give `totalApr = (100*0.10 + 100*0.20) / 500 = 0.06` and `totalFees` the
plain sum. -/
theorem c4_witness :
    (0 : ℚ) < ([mkAggFixture "A" 100 0 7 (some (1 / 10)),
        mkAggFixture "B" 300 0 5 none,
        mkAggFixture "C" 100 0 8 (some (2 / 10))].map fun p => p.tvl_current).sum
    ∧ (aggregate_pool_metrics
        [mkAggFixture "A" 100 0 7 (some (1 / 10)),
          mkAggFixture "B" 300 0 5 none,
          mkAggFixture "C" 100 0 8 (some (2 / 10))] []).total_apr = 6 / 100
    ∧ (aggregate_pool_metrics
        [mkAggFixture "A" 100 0 7 (some (1 / 10)),
          mkAggFixture "B" 300 0 5 none,
          mkAggFixture "C" 100 0 8 (some (2 / 10))] []).total_fees = 20 := by
  have h : (0 : ℚ) < ([mkAggFixture "A" 100 0 7 (some (1 / 10)),
      mkAggFixture "B" 300 0 5 none,
      mkAggFixture "C" 100 0 8 (some (2 / 10))].map fun p => p.tvl_current).sum := by
    norm_num [mkAggFixture]
  refine ⟨h, ?_, ?_⟩
  · rw [(c4_weighted_totals _ [] h).1]
    norm_num [mkAggFixture]
  · rw [(c4_weighted_totals _ [] h).2]
    norm_num [mkAggFixture]

/-- C5: the batch computation raises its error exactly when every requested
pool's per-pool computation failed; otherwise it succeeds and the aggregate
covers exactly the succeeding pools in request order. -/
theorem c5_batch_error_semantics (fetchMetrics : String → Option PoolMetrics)
    (poolAddresses : List String) (rankingBy : List String) :
    (calculate_multi_pool_metrics fetchMetrics poolAddresses rankingBy
        = Except.error "No valid pool metrics could be calculated"
      ↔ ∀ a ∈ poolAddresses, fetchMetrics a = none)
    ∧ ∀ M, calculate_multi_pool_metrics fetchMetrics poolAddresses rankingBy
        = Except.ok M → M.pools = poolAddresses.filterMap fetchMetrics := by
  unfold calculate_multi_pool_metrics
  rcases hfm : poolAddresses.filterMap fetchMetrics with _ | ⟨m, ms⟩
  · refine ⟨⟨fun _ => ?_, fun _ => rfl⟩, fun M hM => by cases hM⟩
    intro a ha
    by_contra hne
    rcases Option.ne_none_iff_exists.mp hne with ⟨b, hb⟩
    have : b ∈ poolAddresses.filterMap fetchMetrics :=
      List.mem_filterMap.mpr ⟨a, ha, hb.symm⟩
    rw [hfm] at this
    cases this
  · constructor
    · constructor
      · intro h
        cases h
      · intro hall
        exfalso
        have hm : m ∈ poolAddresses.filterMap fetchMetrics := by
          rw [hfm]
          exact List.mem_cons_self _ _
        obtain ⟨a, ha, hfa⟩ := List.mem_filterMap.mp hm
        rw [hall a ha] at hfa
        cases hfa
    · intro M hM
      cases hM
      rw [← hfm]
      rfl

/-- C5 witness: a batch whose every pool fails yields exactly the batch
error. -/
theorem c5_witness :
    (∀ a ∈ ["0xa", "0xb"], (fun _ : String => (none : Option PoolMetrics)) a = none)
    ∧ calculate_multi_pool_metrics (fun _ => none) ["0xa", "0xb"] []
        = Except.error "No valid pool metrics could be calculated" := by
  refine ⟨fun a _ => rfl, ?_⟩
  exact (c5_batch_error_semantics (fun _ => none) ["0xa", "0xb"] []).1.mpr
    (fun a _ => rfl)

theorem filter_vol_orderedInsert (v : ℚ) (a : PoolMetrics) :
    ∀ l : List PoolMetrics,
      (l.orderedInsert volGe a).filter (fun p => decide (p.volume_15_days = v))
        = if a.volume_15_days = v then
            a :: l.filter (fun p => decide (p.volume_15_days = v))
          else l.filter (fun p => decide (p.volume_15_days = v)) := by
  intro l
  induction l with
  | nil =>
    by_cases hav : a.volume_15_days = v <;>
      simp [List.orderedInsert, List.filter, hav]
  | cons b bs ih =>
    rw [List.orderedInsert]
    by_cases hr : volGe a b
    · rw [if_pos hr]
      by_cases hav : a.volume_15_days = v <;>
        simp [List.filter_cons, hav]
    · rw [if_neg hr]
      have hb : a.volume_15_days < b.volume_15_days := not_le.mp hr
      by_cases hav : a.volume_15_days = v
      · have hbv : ¬ b.volume_15_days = v := by
          rw [← hav]
          exact ne_of_gt hb
        simp [List.filter_cons, hbv, ih, hav]
      · simp [List.filter_cons, ih, hav]

theorem filter_vol_insertionSort (v : ℚ) :
    ∀ l : List PoolMetrics,
      (l.insertionSort volGe).filter (fun p => decide (p.volume_15_days = v))
        = l.filter (fun p => decide (p.volume_15_days = v)) := by
  intro l
  induction l with
  | nil => rfl
  | cons p ps ih =>
    rw [List.insertionSort, filter_vol_orderedInsert]
    by_cases hp : p.volume_15_days = v <;> simp [List.filter_cons, hp, ih]

/-- C6: with at least 3 pools, `top_3_by_volume` has exactly 3 entries,
descending by volume with ties kept in input order (the sorted list is a
stable reordering: filtering it by any volume value returns those pools in
input order), every entry's percentage is its volume against the whole
batch's volume (0 when the total is 0), and the cap of 3 with descending
order also holds for the TVL-growth ranking and every custom ranking. -/
theorem c6_ranking_invariants (pools : List PoolMetrics)
    (rankingBy : List String) (h3 : 3 ≤ pools.length) :
    (aggregate_pool_metrics pools rankingBy).top_3_by_volume.length = 3
    ∧ (aggregate_pool_metrics pools rankingBy).top_3_by_volume.Pairwise
        (fun e f => f.2.1 ≤ e.2.1)
    ∧ (∀ e ∈ (aggregate_pool_metrics pools rankingBy).top_3_by_volume,
        e.2.2.1 = if 0 < total_volume pools then e.2.1 / total_volume pools * 100
          else 0)
    ∧ (∀ v : ℚ,
        (pools.insertionSort volGe).filter (fun p => decide (p.volume_15_days = v))
          = pools.filter (fun p => decide (p.volume_15_days = v)))
    ∧ (aggregate_pool_metrics pools rankingBy).top_3_by_volume
        = ((pools.insertionSort volGe).take 3).map
            (volume_entry (total_volume pools))
    ∧ (aggregate_pool_metrics pools rankingBy).top_3_by_tvl.length = 3
    ∧ (aggregate_pool_metrics pools rankingBy).top_3_by_tvl.Pairwise
        (fun e f => f.2.1 ≤ e.2.1)
    ∧ (∀ l, (aggregate_pool_metrics pools rankingBy).swap_fee_ranking = some l →
        l.length ≤ 3 ∧ l.Pairwise (fun e f => f.2.1 ≤ e.2.1))
    ∧ (∀ l, (aggregate_pool_metrics pools rankingBy).rebalance_count_ranking
          = some l →
        l.length ≤ 3 ∧ l.Pairwise (fun e f => f.2.1 ≤ e.2.1))
    ∧ (∀ l, (aggregate_pool_metrics pools rankingBy).boosted_apr_ranking = some l →
        l.length ≤ 3 ∧ l.Pairwise (fun e f => f.2.1 ≤ e.2.1)) := by
  have hvol : (aggregate_pool_metrics pools rankingBy).top_3_by_volume
      = ((pools.insertionSort volGe).take 3).map
          (volume_entry (total_volume pools)) := rfl
  have htvl : (aggregate_pool_metrics pools rankingBy).top_3_by_tvl
      = ((pools.insertionSort tvlGrowthGe).take 3).map tvl_entry := rfl
  refine ⟨?_, ?_, ?_, fun v => filter_vol_insertionSort v pools, hvol, ?_, ?_,
    ?_, ?_, ?_⟩
  · rw [hvol]
    simp only [List.length_map, List.length_take, List.length_insertionSort]
    omega
  · rw [hvol]
    refine List.pairwise_map.mpr ?_
    exact ((List.sorted_insertionSort volGe pools).sublist
      (List.take_sublist 3 _))
  · intro e he
    rw [hvol] at he
    obtain ⟨p, _, rfl⟩ := List.mem_map.mp he
    rfl
  · rw [htvl]
    simp only [List.length_map, List.length_take, List.length_insertionSort]
    omega
  · rw [htvl]
    refine List.pairwise_map.mpr ?_
    exact ((List.sorted_insertionSort tvlGrowthGe pools).sublist
      (List.take_sublist 3 _))
  · intro l hl
    have hproj : (aggregate_pool_metrics pools rankingBy).swap_fee_ranking
        = if "swap_fee" ∈ rankingBy then
            some (((pools.insertionSort swapFeeGe).take 3).map
              fun p => (p.pool_name, p.swap_fee, p.pool_url))
          else none := rfl
    rw [hproj] at hl
    split at hl
    · cases hl
      constructor
      · simp only [List.length_map]
        exact List.length_take_le 3 _
      · refine List.pairwise_map.mpr ?_
        exact ((List.sorted_insertionSort swapFeeGe pools).sublist
          (List.take_sublist 3 _))
    · cases hl
  · intro l hl
    have hproj : (aggregate_pool_metrics pools rankingBy).rebalance_count_ranking
        = if "rebalance_count" ∈ rankingBy ∧
              pools.filter (fun p => decide (p.rebalance_count_15d ≠ none)) ≠ [] then
            some ((((pools.filter fun p =>
                decide (p.rebalance_count_15d ≠ none)).insertionSort
                  rebalanceGe).take 3).map
              fun p => (p.pool_name, p.rebalance_count_15d.getD 0, p.pool_url))
          else none := rfl
    rw [hproj] at hl
    split at hl
    · cases hl
      constructor
      · simp only [List.length_map]
        exact List.length_take_le 3 _
      · refine List.pairwise_map.mpr ?_
        exact ((List.sorted_insertionSort rebalanceGe _).sublist
          (List.take_sublist 3 _))
    · cases hl
  · intro l hl
    have hproj : (aggregate_pool_metrics pools rankingBy).boosted_apr_ranking
        = if "boosted_apr" ∈ rankingBy ∧
              pools.filter (fun p => decide (p.boosted_apr ≠ none)) ≠ [] then
            some ((((pools.filter fun p =>
                decide (p.boosted_apr ≠ none)).insertionSort boostedGe).take 3).map
              fun p => (p.pool_name, p.boosted_apr.getD 0, p.pool_url))
          else none := rfl
    rw [hproj] at hl
    split at hl
    · cases hl
      constructor
      · simp only [List.length_map]
        exact List.length_take_le 3 _
      · refine List.pairwise_map.mpr ?_
        exact ((List.sorted_insertionSort boostedGe _).sublist
          (List.take_sublist 3 _))
    · cases hl

/-- C6 witness: a concrete 3-pool batch has a full 3-entry volume ranking. -/
theorem c6_witness :
    3 ≤ ([mkAggFixture "A" 100 10 0 none, mkAggFixture "B" 300 30 0 none,
        mkAggFixture "C" 100 20 0 none] : List PoolMetrics).length
    ∧ (aggregate_pool_metrics
        [mkAggFixture "A" 100 10 0 none, mkAggFixture "B" 300 30 0 none,
          mkAggFixture "C" 100 20 0 none] ["swap_fee"]).top_3_by_volume.length
        = 3 := by
  refine ⟨by simp, ?_⟩
  exact (c6_ranking_invariants _ ["swap_fee"] (by simp)).1

theorem apr_step_none (c : Option ℚ) : apr_step none c = c := by
  unfold apr_step
  rcases c with _ | a <;> simp

theorem apr_step_absorb (v : ℚ) (hv : ¬ v = 0) (c : Option ℚ) :
    apr_step (some v) c = some v := by
  unfold apr_step
  rw [if_neg]
  simp [hv]

theorem foldl_apr_step_absorb (v : ℚ) (hv : ¬ v = 0) :
    ∀ l : List (Option ℚ), l.foldl apr_step (some v) = some v := by
  intro l
  induction l with
  | nil => rfl
  | cons c cs ih =>
    rw [List.foldl_cons, apr_step_absorb v hv c]
    exact ih

theorem foldl_apr_step_spec :
    ∀ (l : List (Option ℚ)) (acc : Option ℚ), acc = none ∨ acc = some 0 →
      l.foldl apr_step acc
        = (match first_nonzero l with
            | some v => some v
            | none => if l.any (fun c => c.isSome) = true then some 0 else acc) := by
  intro l
  induction l with
  | nil =>
    intro acc _
    simp [first_nonzero]
  | cons c cs ih =>
    intro acc hacc
    rw [List.foldl_cons]
    rcases c with _ | a
    · have hstep : apr_step acc none = acc := by
        unfold apr_step
        split <;> rfl
      rw [hstep, ih acc hacc]
      rcases hfz : first_nonzero cs with _ | w <;>
        simp [first_nonzero, hfz, List.any_cons]
    · by_cases ha : a = 0
      · subst ha
        have hstep : apr_step acc (some 0) = some 0 := by
          unfold apr_step
          rw [if_pos hacc]
        rw [hstep, ih (some 0) (Or.inr rfl)]
        rcases hfz : first_nonzero cs with _ | w <;>
          simp [first_nonzero, hfz, List.any_cons]
      · have hstep : apr_step acc (some a) = some a := by
          unfold apr_step
          rw [if_pos hacc]
        rw [hstep, foldl_apr_step_absorb a ha cs]
        simp [first_nonzero, ha]

theorem first_nonzero_eq_none_mem :
    ∀ l : List (Option ℚ), first_nonzero l = none →
      ∀ v : ℚ, some v ∈ l → v = 0 := by
  intro l
  induction l with
  | nil =>
    intro _ v hv
    cases hv
  | cons c cs ih =>
    intro h v hv
    rcases c with _ | a
    · rcases List.mem_cons.mp hv with h' | h'
      · cases h'
      · exact ih (by simpa [first_nonzero] using h) v h'
    · by_cases ha : a = 0
      · subst ha
        rcases List.mem_cons.mp hv with h' | h'
        · injection h'
        · exact ih (by simpa [first_nonzero] using h) v h'
      · exfalso
        simp [first_nonzero, ha] at h

theorem extract_apr_eq_foldl (pool : PoolData) (tvlCurrent fees15Days : ℚ) :
    extract_apr pool tvlCurrent fees15Days
      = (apr_candidates pool tvlCurrent fees15Days).foldl apr_step none := by
  obtain ⟨nm, ver, chain, fee, ⟨tl, v24, f24, tApr, items, dApr⟩, shares, pApr⟩ :=
    pool
  have hb : ∀ acc : Option ℚ,
      (if acc = none ∨ acc = some 0 then
        match items with
        | [] => acc
        | i :: is => if 0 < (i :: is).sum then some (i :: is).sum else some i
      else acc)
        = apr_step acc
            (match items with
              | [] => none
              | i :: is => some (if 0 < (i :: is).sum then (i :: is).sum else i)) := by
    intro acc
    rcases items with _ | ⟨i, is⟩
    · unfold apr_step
      split <;> rfl
    · unfold apr_step
      dsimp only
      rw [← apply_ite (some : ℚ → Option ℚ)]
  have hc : ∀ acc : Option ℚ,
      (if acc = none ∨ acc = some 0 then
        match dApr with
        | some a => some a
        | none => acc
      else acc) = apr_step acc dApr := fun acc => rfl
  have hd : ∀ acc : Option ℚ,
      (if acc = none ∨ acc = some 0 then
        if shares then
          match pApr with
          | some a => some a
          | none => acc
        else acc
      else acc) = apr_step acc (if shares then pApr else none) := by
    intro acc
    cases shares <;> rcases pApr with _ | c <;> simp [apr_step]
  have he : ∀ acc : Option ℚ,
      (if (acc = none ∨ acc = some 0) ∧ 0 < tvlCurrent ∧ 0 < fees15Days then
        some (fees15Days / 15 * 365 / tvlCurrent)
      else acc)
        = apr_step acc
            (if 0 < tvlCurrent ∧ 0 < fees15Days then
              some (fees15Days / 15 * 365 / tvlCurrent)
            else none) := by
    intro acc
    by_cases hcond : 0 < tvlCurrent ∧ 0 < fees15Days
    · simp [apr_step, hcond]
    · simp only [if_neg hcond, hcond, and_false, if_false]
      unfold apr_step
      split <;> rfl
  simp only [extract_apr, apr_candidates, List.foldl_cons, List.foldl_nil,
    apr_step_none]
  rw [hb, hc, hd, he]

/-- C7 (amended): the reported APR is the first non-null, non-zero candidate
in resolution order — (a) the aggregate `totalApr`, (b) for non-empty
`aprItems` the full sum when positive (falling back to the first item when
the sum is not positive), (c) the scalar `apr` fields, (d) the fee-implied
APR — and when no candidate fires, the APR is `0` (not null) whenever some
source was present, and null only when no source was present at all. -/
theorem c7_apr_resolution (pool : PoolData) (tvlCurrent fees15Days : ℚ) :
    extract_apr pool tvlCurrent fees15Days
      = resolve_apr_amended pool tvlCurrent fees15Days := by
  rw [extract_apr_eq_foldl,
    foldl_apr_step_spec (apr_candidates pool tvlCurrent fees15Days) none
      (Or.inl rfl)]
  unfold resolve_apr_amended
  rcases hfz : first_nonzero (apr_candidates pool tvlCurrent fees15Days)
    with _ | w
  · have hc5 : (if 0 < tvlCurrent ∧ 0 < fees15Days then
        some (fees15Days / 15 * 365 / tvlCurrent)
      else none) = (none : Option ℚ) := by
      by_cases hcond : 0 < tvlCurrent ∧ 0 < fees15Days
      · exfalso
        have hmem : some (fees15Days / 15 * 365 / tvlCurrent)
            ∈ apr_candidates pool tvlCurrent fees15Days := by
          simp [apr_candidates, hcond]
        have hzero := first_nonzero_eq_none_mem _ hfz _ hmem
        obtain ⟨htvl, hfees⟩ := hcond
        have hpos : 0 < fees15Days / 15 * 365 / tvlCurrent :=
          div_pos (mul_pos (div_pos hfees (by norm_num)) (by norm_num)) htvl
        rw [hzero] at hpos
        exact lt_irrefl 0 hpos
      · simp [hcond]
    obtain ⟨nm, ver, chain, fee, ⟨tl, v24, f24, tApr, items, dApr⟩, shares, pApr⟩ :=
      pool
    refine if_congr ?_ rfl rfl
    simp only [apr_candidates] at hc5 ⊢
    rw [hc5]
    unfold any_apr_source_present
    rcases tApr with _ | a <;> rcases items with _ | ⟨i, is⟩ <;>
      rcases dApr with _ | b <;> cases shares <;> rcases pApr with _ | c <;>
        simp [List.any_cons]
  · simp

/-- C7 counterexample: a pool whose `dynamicData` carries `totalApr = 0` and
nothing else reports APR `0`, where the claim's chain — every step yields
nothing — demands null. -/
theorem c7_counterexample :
    extract_apr zeroAprPoolFixture 0 0 = some 0
    ∧ resolve_apr_claim zeroAprPoolFixture 0 0 = none := by
  constructor <;> decide

/-- C8 (amended): with the optional unified GQL endpoint configured
(`gqlConfigured = true`), a default-chain (ethereum) query raises the
pool-not-found error only after both paths failed: a pool found by V2 is
returned at once; a V2 exception or empty result is caught and V3 decides
the outcome; the error is raised only when V3 also fails.  On a non-default
chain the V2 path is skipped entirely (the result does not depend on the V2
oracle) and V3 alone decides.  Without the endpoint configured — the shipped
default — the V2 path is skipped even on ethereum. -/
theorem c8_gateway_paths {α : Type} (blockchain : Option String)
    (v2Fetch v3Fetch : Except Unit (Option α)) :
    (is_default_chain blockchain = true →
      (∀ p, v2Fetch = Except.ok (some p) →
        get_current_pool_data true blockchain v2Fetch v3Fetch = Except.ok p)
      ∧ ((∀ p, v2Fetch ≠ Except.ok (some p)) →
          (∀ q, v3Fetch = Except.ok (some q) →
            get_current_pool_data true blockchain v2Fetch v3Fetch = Except.ok q)
          ∧ ((∀ q, v3Fetch ≠ Except.ok (some q)) →
              get_current_pool_data true blockchain v2Fetch v3Fetch
                = Except.error pool_not_found_message)))
    ∧ (is_default_chain blockchain = false →
        (∀ v2Fetch' : Except Unit (Option α),
          get_current_pool_data true blockchain v2Fetch v3Fetch
            = get_current_pool_data true blockchain v2Fetch' v3Fetch)
        ∧ (∀ q, v3Fetch = Except.ok (some q) →
            get_current_pool_data true blockchain v2Fetch v3Fetch = Except.ok q)
        ∧ ((∀ q, v3Fetch ≠ Except.ok (some q)) →
            get_current_pool_data true blockchain v2Fetch v3Fetch
              = Except.error pool_not_found_message)) := by
  have hv3err : (∀ q, v3Fetch ≠ Except.ok (some q)) →
      (match v3Fetch with
        | Except.ok (some p) => Except.ok p
        | _ => (Except.error pool_not_found_message : Except String α))
        = Except.error pool_not_found_message := by
    intro h
    rcases v3Fetch with e3 | o3
    · rfl
    · rcases o3 with _ | q3
      · rfl
      · exact absurd rfl (h q3)
  constructor
  · intro hdef
    constructor
    · rintro p rfl
      simp [get_current_pool_data, hdef]
    · intro hv2
      have hmatch : (match v2Fetch with
          | Except.ok (some p) => (Except.ok p : Except String α)
          | _ =>
            match v3Fetch with
            | Except.ok (some p) => Except.ok p
            | _ => Except.error pool_not_found_message)
          = (match v3Fetch with
              | Except.ok (some p) => Except.ok p
              | _ => Except.error pool_not_found_message) := by
        rcases v2Fetch with e2 | o2
        · rfl
        · rcases o2 with _ | p2
          · rfl
          · exact absurd rfl (hv2 p2)
      constructor
      · rintro q rfl
        simp [get_current_pool_data, hdef, hmatch]
      · intro hv3
        simp [get_current_pool_data, hdef, hmatch, hv3err hv3]
  · intro hdef
    refine ⟨?_, ?_, ?_⟩
    · intro v2Fetch'
      simp [get_current_pool_data, hdef]
    · rintro q rfl
      simp [get_current_pool_data, hdef]
    · intro hv3
      simp [get_current_pool_data, hdef, hv3err hv3]

/-- C8 counterexample: with the unified GQL endpoint unset (the shipped
default configuration) and the default chain, the code raises the not-found
error without attempting the V2 path, even though the V2 path would have
found the pool. -/
theorem c8_counterexample :
    get_current_pool_data (α := ℕ) false none (Except.ok (some 7))
        (Except.ok none)
      = Except.error pool_not_found_message := by
  rfl

/-- C8 witness: endpoint configured, default chain, V2 raises, V3 finds the
pool — the V2 failure is caught and the V3 result is returned. -/
theorem c8_witness :
    is_default_chain none = true
    ∧ get_current_pool_data (α := ℕ) true none (Except.error ())
        (Except.ok (some 7)) = Except.ok 7 := by
  refine ⟨rfl, ?_⟩
  exact (((c8_gateway_paths none (Except.error ()) (Except.ok (some 7))).1
    rfl).2 (fun p h => by cases h)).1 7 rfl

end PoolReport
